import Mathlib

/-!
Shallow embedding of the RustPython interactive shell core (`src/shell.rs`):
the completeness classifier `shell_exec` and one iteration of the `run_shell`
read-eval loop.  External collaborators (the compiler, the executing virtual
machine, the line editor with its history store, and the `sys` prompt lookup)
enter as explicit parameters, mirroring the interfaces the Rust code consumes.
-/

namespace Shell

/-- Embedding of `rustpython_compiler::parser::FStringErrorType`: only the
variant the shell inspects is kept explicitly; every remaining variant of the
Rust enum is abstracted into the `OtherVariant` carrier. -/
inductive FStringErrorType
  | UnterminatedTripleQuotedString
  | OtherVariant (n : Nat)
  deriving Repr, DecidableEq

/-- Embedding of `rustpython_compiler::parser::LexicalErrorType`: the variants
`shell_exec` matches on are kept; the rest are abstracted into `OtherVariant`. -/
inductive LexicalErrorType
  | Eof
  | FStringError (e : FStringErrorType)
  | UnclosedStringError
  | IndentationError
  | OtherVariant (n : Nat)
  deriving Repr, DecidableEq

/-- Embedding of `rustpython_compiler::parser::ParseErrorType`: `Lexical` and
`OtherError` are matched by the shell; the rest are abstracted. -/
inductive ParseErrorType
  | Lexical (e : LexicalErrorType)
  | OtherError (msg : String)
  | OtherVariant (n : Nat)
  deriving Repr, DecidableEq

/-- Embedding of `rustpython_compiler::ParseError`.  The Rust struct carries a
`raw_location : TextRange`; the shell only reads `raw_location.start().to_usize()`,
so the embedding keeps that start offset as a `Nat`. -/
structure ParseError where
  error : ParseErrorType
  raw_location : Nat
  deriving Repr, DecidableEq

/-- Embedding of `rustpython_compiler::CompileError`: the `Parse` variant is
matched by the shell; codegen and any other variants are abstracted. -/
inductive CompileError
  | Parse (p : ParseError)
  | OtherVariant (n : Nat)
  deriving Repr, DecidableEq

/-- A compiled code object.  The shell never inspects it, only hands it to
`run_code_obj`, so the embedding uses a trivial carrier. -/
abbrev CodeObj := Unit

/-- Embedding of `PyBaseExceptionRef` as far as the shell observes it:
`syntaxError` models `vm.new_syntax_error(&err, Some(source))`,
`keyboardInterrupt` models the exception synthesized on readline interrupt,
`systemExit` models an exception instance of class `SystemExit`, and
`runtimeError` abstracts every other exception produced by execution. -/
inductive PyExc
  | syntaxError (err : CompileError) (source : String)
  | keyboardInterrupt
  | systemExit
  | runtimeError (n : Nat)
  deriving Repr, DecidableEq

/-- Embedding of `exc.fast_isinstance(vm.ctx.exceptions.system_exit)`: only an
instance of `SystemExit` satisfies it; syntax errors and `KeyboardInterrupt`
are not `SystemExit` subclasses. -/
def PyExc.isSystemExit : PyExc → Bool
  | .systemExit => true
  | _ => false

/-- Embedding of the `ShellExecResult` enum of `src/shell.rs`. -/
inductive ShellExecResult
  | Ok
  | PyErr (err : PyExc)
  | ContinueBlock
  | ContinueLine
  deriving Repr, DecidableEq

/-- Embedding of the offset lookback in `shell_exec` (`src/shell.rs:68-74`):
`let loc = raw_location.start().to_usize(); let mut iter = source.chars();`
take the `loc`-th character as `quote` and test whether the following two
characters both equal it. -/
def triple_quote_at (source : String) (loc : Nat) : Bool :=
  match source.data.drop loc with
  | q :: a :: b :: _ => a == q && b == q
  | _ => false

/-- Embedding of the `if let` block of `src/shell.rs:62-75`: the error is a
generic unclosed-string lexical error and the character at its start offset
begins a run of three identical characters (an unterminated triple-quoted
string reported under the generic category). -/
def unclosed_string_triple_quote (source : String) (err : CompileError) : Bool :=
  match err with
  | .Parse ⟨.Lexical .UnclosedStringError, loc⟩ => triple_quote_at source loc
  | _ => false

/-- Embedding of the `let bad_error = ...` binding of `src/shell.rs:82-99`. -/
def bad_error (err : CompileError) (continuing_block : Bool) : Bool :=
  match err with
  | .Parse p =>
    match p.error with
    | .Lexical .IndentationError => continuing_block
    | .OtherError msg =>
      if msg.startsWith "Expected an indented block" then continuing_block else true
    | _ => true
  | _ => true

/-- Embedding of `shell_exec` (`src/shell.rs:22-109`).  `compile` stands for
`vm.compile(source, Mode::Single, "<stdin>")` and `run_code_obj` for
`vm.run_code_obj(code, scope)`; both are external collaborators.  The
`cfg(windows)` line-ending normalization is a no-op on the modelled platform. -/
def shell_exec (compile : String → Except CompileError CodeObj)
    (run_code_obj : CodeObj → Except PyExc Unit)
    (source : String) (empty_line_given : Bool) (continuing_block : Bool) :
    ShellExecResult :=
  match compile source with
  | .ok code =>
    if empty_line_given || !continuing_block then
      match run_code_obj code with
      | .ok _ => .Ok
      | .error err => .PyErr err
    else
      .Ok
  | .error (.Parse ⟨.Lexical .Eof, _⟩) => .ContinueLine
  | .error (.Parse ⟨.Lexical (.FStringError .UnterminatedTripleQuotedString), _⟩) =>
    .ContinueLine
  | .error err =>
    if unclosed_string_triple_quote source err then .ContinueLine
    else if empty_line_given || bad_error err continuing_block then
      .PyErr (.syntaxError err source)
    else
      .ContinueBlock

/-- Embedding of Rust `str::trim_end`: drop trailing whitespace characters. -/
def trim_end (s : String) : String :=
  String.mk ((s.data.reverse.dropWhile Char.isWhitespace).reverse)

/-- The mutable state owned by the `run_shell` loop (`src/shell.rs:114,134-135`):
the accumulated `full_input` buffer and the two continuation flags. -/
structure ShellState where
  full_input : String
  continuing_block : Bool
  continuing_line : Bool
  deriving Repr, DecidableEq

/-- The external collaborators consumed by one `run_shell` iteration: compiler,
executor, line-editor history operations, and the `sys` prompt lookup. -/
structure VMHooks where
  compile : String → Except CompileError CodeObj
  run_code_obj : CodeObj → Except PyExc Unit
  add_history_entry : String → Except Unit Unit
  save_history : Except Unit Unit
  sys_prompt : String → Except Unit String

/-- Embedding of `rustpython_vm::readline::ReadlineResult` as matched in
`run_shell` (`src/shell.rs:153-222`).  The payloads of `Other` and `Io` are
only printed, so they are abstracted to a numeric carrier. -/
inductive ReadlineResult
  | Line (line : String)
  | Interrupt
  | Eof
  | Other (n : Nat)
  | Io (n : Nat)
  deriving Repr, DecidableEq

/-- Outcome of one `run_shell` loop iteration: `next` continues the loop with a
new state (reporting `reported` through `vm.print_exception` when present),
`exitOk` models `break` followed by the final history save and `Ok(())`,
`exitErr` models the `SystemExit` propagation path, and `panicked` models a
failed `.unwrap()`. -/
inductive LoopStep
  | next (st : ShellState) (reported : Option PyExc)
  | exitOk
  | exitErr (exc : PyExc)
  | panicked
  deriving Repr, DecidableEq

/-- Embedding of the tail of the loop body (`src/shell.rs:225-231`): on an
error result, a `SystemExit` instance saves history (`.unwrap()`) and
propagates; any other exception is printed and the loop continues. -/
def handle_result (vm : VMHooks) (st : ShellState) (result : Except PyExc Unit) :
    LoopStep :=
  match result with
  | .ok _ => .next st none
  | .error exc =>
    if exc.isSystemExit then
      match vm.save_history with
      | .ok _ => .exitErr exc
      | .error _ => .panicked
    else
      .next st (some exc)

/-- Embedding of one iteration of the `run_shell` loop body
(`src/shell.rs:137-231`) plus, for the `Eof`/`Other`/`Io` break paths, the
final `repl.save_history(&repl_history_path).unwrap()` of line 233.
`continuing_line = false` is applied unconditionally first (line 152); a
`Line` is recorded into history via `add_history_entry(line.trim_end()).unwrap()`
(line 158), appended to the buffer with a trailing newline (lines 162-167), and
classified by `shell_exec`; the verdict is applied exactly as in lines 176-203. -/
def run_shell_step (vm : VMHooks) (st : ShellState) (input : ReadlineResult) :
    LoopStep :=
  let st := { st with continuing_line := false }
  match input with
  | .Line line =>
    match vm.add_history_entry (trim_end line) with
    | .error _ => .panicked
    | .ok _ =>
      let empty_line_given := line.isEmpty
      let full_input :=
        (if st.full_input.isEmpty then line else st.full_input ++ line).push '\n'
      let st := { st with full_input := full_input }
      match shell_exec vm.compile vm.run_code_obj st.full_input empty_line_given
          st.continuing_block with
      | .Ok =>
        if st.continuing_block then
          if empty_line_given then
            handle_result vm { st with continuing_block := false, full_input := "" }
              (.ok ())
          else
            handle_result vm st (.ok ())
        else
          handle_result vm { st with full_input := "" } (.ok ())
      | .ContinueLine =>
        handle_result vm { st with continuing_line := true } (.ok ())
      | .ContinueBlock =>
        handle_result vm { st with continuing_block := true } (.ok ())
      | .PyErr err =>
        handle_result vm { st with continuing_block := false, full_input := "" }
          (.error err)
  | .Interrupt =>
    handle_result vm { st with continuing_block := false, full_input := "" }
      (.error .keyboardInterrupt)
  | .Eof =>
    match vm.save_history with
    | .ok _ => .exitOk
    | .error _ => .panicked
  | .Other _ =>
    match vm.save_history with
    | .ok _ => .exitOk
    | .error _ => .panicked
  | .Io _ =>
    match vm.save_history with
    | .ok _ => .exitOk
    | .error _ => .panicked

/-- Embedding of the prompt-name selection at the top of each iteration
(`src/shell.rs:138-142`). -/
def prompt_name (continuing_block continuing_line : Bool) : String :=
  if continuing_block || continuing_line then "ps2" else "ps1"

/-- Embedding of the prompt-string retrieval (`src/shell.rs:143-150`): look the
selected name up in the `sys` module; on failure the prompt is `""`. -/
def iteration_prompt (sys_prompt : String → Except Unit String)
    (continuing_block continuing_line : Bool) : String :=
  match sys_prompt (prompt_name continuing_block continuing_line) with
  | .ok s => s
  | .error _ => ""

/-- Whether the buffer ends in a line break (the `full_input` invariant). -/
def ends_with_newline (s : String) : Bool :=
  match s.data.getLast? with
  | some c => c == '\n'
  | none => false

/-- Modelled from the spec: the compiler collaborator (`rustpython_compiler`,
not under `src/`) reports an unterminated string literal as the generic
unclosed-string lexical error whose diagnostic start offset points at the
opening quote character of the literal (spec section 4.1, rules 4-5: "some
lexers report triple-quote openings under the generic single-quote error
category"). -/
def compile_unterminated_string (open_offset : Nat) :
    String → Except CompileError CodeObj :=
  fun _ => .error (.Parse ⟨.Lexical .UnclosedStringError, open_offset⟩)

/-- An apostrophe character (codepoint 39), the single-quote string opener. -/
def squote : Char := Char.ofNat 39

/-- The buffer assigning an unterminated single-quoted string (one opening
quote then the letter a), followed by the newline appended by the loop; the
opening quote sits at offset 4. -/
def single_quote_source : String :=
  String.mk ['x', ' ', '=', ' ', squote, 'a', '\n']

/-- The buffer assigning an unterminated triple-quoted string (three identical
quotes starting at offset 4), followed by the appended newline. -/
def triple_quote_source : String :=
  String.mk ['x', ' ', '=', ' ', squote, squote, squote, '\n']

/-- A collaborator bundle whose every operation succeeds: compilation yields a
code object, execution succeeds, history recording and saving succeed. -/
def ok_vm : VMHooks where
  compile := fun _ => Except.ok ()
  run_code_obj := fun _ => Except.ok ()
  add_history_entry := fun _ => Except.ok ()
  save_history := Except.ok ()
  sys_prompt := fun _ => Except.ok ">>> "

/-- A collaborator bundle whose history operations fail, exercising the
`.unwrap()` calls of `src/shell.rs:158,227,233`. -/
def failing_history_vm : VMHooks where
  compile := fun _ => Except.ok ()
  run_code_obj := fun _ => Except.ok ()
  add_history_entry := fun _ => Except.error ()
  save_history := Except.error ()
  sys_prompt := fun _ => Except.error ()

/-- A diagnostic used in examples: a generic parse error whose message does not
begin with the indented-block prefix. -/
def invalid_syntax_err : CompileError :=
  .Parse ⟨.OtherError "invalid syntax", 0⟩

/-- An indentation-category diagnostic at offset 0. -/
def indentation_err : CompileError :=
  .Parse ⟨.Lexical .IndentationError, 0⟩

theorem data_push (s : String) (c : Char) : (s.push c).data = s.data ++ [c] := by
  cases s
  rfl

theorem push_ne_empty (s : String) (c : Char) : s.push c ≠ "" := by
  intro h
  have hd : (s.push c).data = [] := by
    rw [h]
  rw [data_push] at hd
  simp at hd

theorem ends_with_newline_push (s : String) :
    ends_with_newline (s.push '\n') = true := by
  simp [ends_with_newline, data_push, List.getLast?_concat]

theorem isEmpty_false_of_ne (s : String) (h : s ≠ "") : s.isEmpty = false := by
  obtain ⟨l⟩ := s
  cases l with
  | nil => exact absurd rfl h
  | cons c cs =>
    have hpos : 0 < String.utf8ByteSize ⟨c :: cs⟩ :=
      Nat.add_pos_right _ (Char.utf8Size_pos c)
    simp only [String.isEmpty, String.endPos]
    rw [beq_eq_false_iff_ne]
    intro hc
    rw [String.Pos.ext_iff] at hc
    simp only [String.Pos.byteIdx_zero] at hc
    omega

/-- General shape of `shell_exec` on a compile failure that reaches the final
branch of the classifier: neither a lexical end-of-input, nor the unterminated
triple-quoted f-string sub-case, nor an unclosed-string error pointing at a
triple quote. -/
theorem shell_exec_error_general
    (compile : String → Except CompileError CodeObj)
    (run_code_obj : CodeObj → Except PyExc Unit)
    (source : String) (empty_line_given continuing_block : Bool)
    (err : CompileError)
    (hc : compile source = Except.error err)
    (h1 : ∀ loc, err ≠ .Parse ⟨.Lexical .Eof, loc⟩)
    (h2 : ∀ loc,
      err ≠ .Parse ⟨.Lexical (.FStringError .UnterminatedTripleQuotedString), loc⟩)
    (h3 : unclosed_string_triple_quote source err = false) :
    shell_exec compile run_code_obj source empty_line_given continuing_block =
      if empty_line_given || bad_error err continuing_block then
        ShellExecResult.PyErr (.syntaxError err source)
      else
        ShellExecResult.ContinueBlock := by
  obtain p | n := err
  · obtain ⟨pe, loc⟩ := p
    cases pe with
    | Lexical e =>
      cases e with
      | Eof => exact absurd rfl (h1 loc)
      | FStringError f =>
        cases f with
        | UnterminatedTripleQuotedString => exact absurd rfl (h2 loc)
        | OtherVariant j =>
          simp [shell_exec, hc, unclosed_string_triple_quote, bad_error]
      | UnclosedStringError =>
        simp only [unclosed_string_triple_quote] at h3
        simp [shell_exec, hc, unclosed_string_triple_quote, bad_error, h3]
      | IndentationError =>
        simp [shell_exec, hc, unclosed_string_triple_quote, bad_error]
      | OtherVariant k =>
        simp [shell_exec, hc, unclosed_string_triple_quote, bad_error]
    | OtherError msg =>
      simp [shell_exec, hc, unclosed_string_triple_quote, bad_error]
    | OtherVariant m =>
      simp [shell_exec, hc, unclosed_string_triple_quote, bad_error]
  · simp [shell_exec, hc, unclosed_string_triple_quote, bad_error]

/-- Claim C1: for every compile failure that is not lexical end-of-input, not
the unterminated-triple-quoted-string f-string sub-case, and not a generic
unclosed-string error whose offset points at three identical quote characters,
`shell_exec` computes the fatal flag `bad_error` as: indentation errors get
`continuing_block`, generic other-errors whose message starts with
"Expected an indented block" get `continuing_block`, every other diagnostic
gets `true`; it returns the wrapped diagnostic when `empty_line_given` or the
flag holds and `ContinueBlock` otherwise. -/
theorem shell_exec_fatal_flag_classification
    (compile : String → Except CompileError CodeObj)
    (run_code_obj : CodeObj → Except PyExc Unit)
    (source : String) (empty_line_given continuing_block : Bool)
    (err : CompileError)
    (hc : compile source = Except.error err)
    (h1 : ∀ loc, err ≠ .Parse ⟨.Lexical .Eof, loc⟩)
    (h2 : ∀ loc,
      err ≠ .Parse ⟨.Lexical (.FStringError .UnterminatedTripleQuotedString), loc⟩)
    (h3 : unclosed_string_triple_quote source err = false) :
    (shell_exec compile run_code_obj source empty_line_given continuing_block =
      if empty_line_given || bad_error err continuing_block then
        ShellExecResult.PyErr (.syntaxError err source)
      else
        ShellExecResult.ContinueBlock) ∧
    (∀ loc b, bad_error (.Parse ⟨.Lexical .IndentationError, loc⟩) b = b) ∧
    (∀ msg loc b, bad_error (.Parse ⟨.OtherError msg, loc⟩) b =
      if msg.startsWith "Expected an indented block" then b else true) ∧
    (∀ e b, (∀ loc, e ≠ CompileError.Parse ⟨.Lexical .IndentationError, loc⟩) →
      (∀ msg loc, e ≠ CompileError.Parse ⟨.OtherError msg, loc⟩) →
      bad_error e b = true) := by
  refine ⟨shell_exec_error_general compile run_code_obj source empty_line_given
    continuing_block err hc h1 h2 h3, ?_, ?_, ?_⟩
  · intro loc b
    rfl
  · intro msg loc b
    rfl
  · intro e b he1 he2
    obtain p | n := e
    · obtain ⟨pe, loc⟩ := p
      cases pe with
      | Lexical l =>
        cases l with
        | IndentationError => exact absurd rfl (he1 loc)
        | Eof => rfl
        | FStringError f => rfl
        | UnclosedStringError => rfl
        | OtherVariant k => rfl
      | OtherError msg => exact absurd rfl (he2 msg loc)
      | OtherVariant m => rfl
    · rfl

/-- Witness for C1 at a concrete fatal diagnostic (`invalid syntax`, not the
indented-block prefix): the classifier wraps it even though no blank line was
given and no block was being continued. -/
theorem shell_exec_fatal_flag_classification_witness :
    shell_exec (fun _ => Except.error invalid_syntax_err) (fun _ => Except.ok ())
      "1 +\n" false false =
      if false || bad_error invalid_syntax_err false then
        ShellExecResult.PyErr (.syntaxError invalid_syntax_err "1 +\n")
      else
        ShellExecResult.ContinueBlock :=
  (shell_exec_fatal_flag_classification (fun _ => Except.error invalid_syntax_err)
    (fun _ => Except.ok ()) "1 +\n" false false invalid_syntax_err rfl
    (by intro loc h; simp [invalid_syntax_err] at h)
    (by intro loc h; simp [invalid_syntax_err] at h)
    (by decide)).1

/-- Counterexample to C2 as stated: the single-quote buffer fails with the
generic unclosed-string error at offset 4, the opening quote (modelled from
the spec because the lexer is outside `src/`); the lookback finds a quote
followed by the letter a rather than three identical quotes, so the classifier
returns the wrapped diagnostic, not `ContinueLine`. -/
theorem single_quote_unterminated_not_continue_line :
    shell_exec (compile_unterminated_string 4) (fun _ => Except.ok ())
        single_quote_source false false =
      ShellExecResult.PyErr
        (.syntaxError (.Parse ⟨.Lexical .UnclosedStringError, 4⟩)
          single_quote_source) ∧
    shell_exec (compile_unterminated_string 4) (fun _ => Except.ok ())
        single_quote_source false false ≠ ShellExecResult.ContinueLine := by
  constructor
  · decide
  · decide

/-- Claim C2, amended: a compile failure reported as the unterminated
triple-quoted f-string lexical error, or as the generic unclosed-string error
whose offset points at three identical quote characters, makes `shell_exec`
return `ContinueLine` for both values of `already_continuing_block` (and of
`empty_line_given`); an unterminated string opened with one single or double
quote instead surfaces as a reported error. -/
theorem shell_exec_unterminated_triple_continue_line
    (compile : String → Except CompileError CodeObj)
    (run_code_obj : CodeObj → Except PyExc Unit)
    (source : String) (loc : Nat) (empty_line_given continuing_block : Bool) :
    (compile source = Except.error
        (.Parse ⟨.Lexical (.FStringError .UnterminatedTripleQuotedString), loc⟩) →
      shell_exec compile run_code_obj source empty_line_given continuing_block =
        ShellExecResult.ContinueLine) ∧
    (compile source = Except.error (.Parse ⟨.Lexical .UnclosedStringError, loc⟩) →
      triple_quote_at source loc = true →
      shell_exec compile run_code_obj source empty_line_given continuing_block =
        ShellExecResult.ContinueLine) := by
  constructor
  · intro hc
    simp [shell_exec, hc]
  · intro hc ht
    simp [shell_exec, hc, unclosed_string_triple_quote, ht]

/-- Witness for the amended C2: the triple-quote buffer, reported under the
generic unclosed-string category at offset 4, where three identical quotes
sit, continues the line for both continuation modes. -/
theorem shell_exec_unterminated_triple_continue_line_witness :
    shell_exec (compile_unterminated_string 4) (fun _ => Except.ok ())
        triple_quote_source false true = ShellExecResult.ContinueLine ∧
    shell_exec (compile_unterminated_string 4) (fun _ => Except.ok ())
        triple_quote_source false false = ShellExecResult.ContinueLine :=
  ⟨(shell_exec_unterminated_triple_continue_line (compile_unterminated_string 4)
      (fun _ => Except.ok ()) triple_quote_source 4 false true).2 rfl (by decide),
   (shell_exec_unterminated_triple_continue_line (compile_unterminated_string 4)
      (fun _ => Except.ok ()) triple_quote_source 4 false false).2 rfl (by decide)⟩

/-- Counterexample to C4 as stated: an indentation diagnostic with
`already_continuing_block = false` but `empty_line_given = true` does surface
as a reported error, so "never returns Failed for any value of had_empty_line"
is false. -/
theorem indentation_error_on_empty_line_fails :
    shell_exec (fun _ => Except.error indentation_err) (fun _ => Except.ok ())
      "if True:\n\n" true false =
      ShellExecResult.PyErr (.syntaxError indentation_err "if True:\n\n") := by
  decide

/-- Claim C4, amended: for an indentation-category compile failure the
classifier returns the wrapped diagnostic exactly when `empty_line_given` or
`already_continuing_block` holds, and `ContinueBlock` otherwise; in particular
with `already_continuing_block = false` and a non-empty line it never fails,
and with `already_continuing_block = true` and a non-empty line it does. -/
theorem shell_exec_indentation_classification
    (compile : String → Except CompileError CodeObj)
    (run_code_obj : CodeObj → Except PyExc Unit)
    (source : String) (loc : Nat) (empty_line_given continuing_block : Bool)
    (hc : compile source =
      Except.error (.Parse ⟨.Lexical .IndentationError, loc⟩)) :
    shell_exec compile run_code_obj source empty_line_given continuing_block =
      if empty_line_given || continuing_block then
        ShellExecResult.PyErr
          (.syntaxError (.Parse ⟨.Lexical .IndentationError, loc⟩) source)
      else
        ShellExecResult.ContinueBlock := by
  have h := shell_exec_error_general compile run_code_obj source empty_line_given
    continuing_block (.Parse ⟨.Lexical .IndentationError, loc⟩) hc
    (by intro loc2 h; simp at h) (by intro loc2 h; simp at h)
    (by simp [unclosed_string_triple_quote, triple_quote_at])
  rw [h]
  rfl

/-- Witness for the amended C4: with a non-empty line, the indentation
diagnostic is swallowed outside a block and surfaced inside one. -/
theorem shell_exec_indentation_classification_witness :
    (shell_exec (fun _ => Except.error (.Parse ⟨.Lexical .IndentationError, 0⟩))
      (fun _ => Except.ok ()) "for x in y:\n" false false =
      if false || false then
        ShellExecResult.PyErr
          (.syntaxError (.Parse ⟨.Lexical .IndentationError, 0⟩) "for x in y:\n")
      else
        ShellExecResult.ContinueBlock) ∧
    (shell_exec (fun _ => Except.error (.Parse ⟨.Lexical .IndentationError, 0⟩))
      (fun _ => Except.ok ()) "for x in y:\nz\n" false true =
      if false || true then
        ShellExecResult.PyErr
          (.syntaxError (.Parse ⟨.Lexical .IndentationError, 0⟩) "for x in y:\nz\n")
      else
        ShellExecResult.ContinueBlock) :=
  ⟨shell_exec_indentation_classification (fun _ => Except.error
      (.Parse ⟨.Lexical .IndentationError, 0⟩)) (fun _ => Except.ok ())
      "for x in y:\n" 0 false false rfl,
   shell_exec_indentation_classification (fun _ => Except.error
      (.Parse ⟨.Lexical .IndentationError, 0⟩)) (fun _ => Except.ok ())
      "for x in y:\nz\n" 0 false true rfl⟩

/-- Claim C10: a generic unclosed-string compile failure whose offset does not
point at three identical characters always surfaces as the wrapped diagnostic,
for every combination of `empty_line_given` and `already_continuing_block`; in
particular it never yields `ContinueBlock`. -/
theorem shell_exec_unclosed_string_always_fatal
    (compile : String → Except CompileError CodeObj)
    (run_code_obj : CodeObj → Except PyExc Unit)
    (source : String) (loc : Nat) (empty_line_given continuing_block : Bool)
    (hc : compile source =
      Except.error (.Parse ⟨.Lexical .UnclosedStringError, loc⟩))
    (ht : triple_quote_at source loc = false) :
    shell_exec compile run_code_obj source empty_line_given continuing_block =
      ShellExecResult.PyErr
        (.syntaxError (.Parse ⟨.Lexical .UnclosedStringError, loc⟩) source) ∧
    shell_exec compile run_code_obj source empty_line_given continuing_block ≠
      ShellExecResult.ContinueBlock := by
  have h := shell_exec_error_general compile run_code_obj source empty_line_given
    continuing_block (.Parse ⟨.Lexical .UnclosedStringError, loc⟩) hc
    (by intro loc2 h; simp at h) (by intro loc2 h; simp at h)
    (by simp [unclosed_string_triple_quote, ht])
  rw [h]
  constructor
  · simp [bad_error]
  · simp [bad_error]

/-- Witness for C10 on the single-quote buffer with a blank empty-line flag
and the block flag set: the diagnostic is wrapped, never `ContinueBlock`. -/
theorem shell_exec_unclosed_string_always_fatal_witness :
    shell_exec (compile_unterminated_string 4) (fun _ => Except.ok ())
        single_quote_source false true =
      ShellExecResult.PyErr
        (.syntaxError (.Parse ⟨.Lexical .UnclosedStringError, 4⟩)
          single_quote_source) ∧
    shell_exec (compile_unterminated_string 4) (fun _ => Except.ok ())
        single_quote_source false true ≠ ShellExecResult.ContinueBlock :=
  shell_exec_unclosed_string_always_fatal (compile_unterminated_string 4)
    (fun _ => Except.ok ()) single_quote_source 4 false true rfl (by decide)

/-- Counterexample to C3 as stated: with a line editor whose history
operations fail, the `.unwrap()` calls of `src/shell.rs:158` and `233` panic:
a failed per-line history record aborts the loop and a failed final save
aborts instead of returning. -/
theorem history_failure_aborts :
    run_shell_step failing_history_vm ⟨"", false, false⟩ (.Line "x") =
      LoopStep.panicked ∧
    run_shell_step failing_history_vm ⟨"", false, false⟩ .Eof =
      LoopStep.panicked := by
  constructor
  · rfl
  · rfl

/-- Claim C3, amended: history persistence is not best-effort in the loop
body: a failure of the per-line `add_history_entry` panics (aborting the
iteration), and a failure of the final `save_history` on the end-of-input exit
path panics instead of returning. -/
theorem history_unwrap_panics (vm : VMHooks) (st : ShellState) (line : String) :
    (vm.add_history_entry (trim_end line) = Except.error () →
      run_shell_step vm st (.Line line) = LoopStep.panicked) ∧
    (vm.save_history = Except.error () →
      run_shell_step vm st .Eof = LoopStep.panicked) := by
  constructor
  · intro h
    simp [run_shell_step, h]
  · intro h
    simp [run_shell_step, h]

/-- Witness for the amended C3 on a concrete failing collaborator bundle and a
non-trivial loop state. -/
theorem history_unwrap_panics_witness :
    run_shell_step failing_history_vm ⟨"if True:\n", true, false⟩ (.Line "y") =
      LoopStep.panicked ∧
    run_shell_step failing_history_vm ⟨"if True:\n", true, false⟩ .Eof =
      LoopStep.panicked :=
  ⟨(history_unwrap_panics failing_history_vm ⟨"if True:\n", true, false⟩ "y").1 rfl,
   (history_unwrap_panics failing_history_vm ⟨"if True:\n", true, false⟩ "y").2 rfl⟩

/-- Claim C7: on an interrupt the driver clears `continuing_block`, empties
the buffer, synthesizes a `KeyboardInterrupt` that is reported rather than
propagated, and the loop continues; the next prompt, computed from the reset
flags, is the primary one. -/
theorem interrupt_resets_and_reports (vm : VMHooks) (st : ShellState) :
    run_shell_step vm st .Interrupt =
      LoopStep.next ⟨"", false, false⟩ (some PyExc.keyboardInterrupt) ∧
    prompt_name false false = "ps1" := by
  constructor
  · rfl
  · rfl

/-- Claim C8: the secondary prompt name is selected exactly when
`continuing_block` or `continuing_line` holds, the primary one otherwise, and
a failed prompt lookup yields the empty prompt string. -/
theorem prompt_selection_rule (continuing_block continuing_line : Bool)
    (sys_prompt : String → Except Unit String) :
    (prompt_name continuing_block continuing_line = "ps2" ↔
      (continuing_block || continuing_line) = true) ∧
    (prompt_name continuing_block continuing_line = "ps1" ↔
      (continuing_block || continuing_line) = false) ∧
    (∀ e : Unit, sys_prompt (prompt_name continuing_block continuing_line) =
        Except.error e →
      iteration_prompt sys_prompt continuing_block continuing_line = "") := by
  refine ⟨?_, ?_, ?_⟩
  · cases continuing_block <;> cases continuing_line <;> decide
  · cases continuing_block <;> cases continuing_line <;> decide
  · intro e he
    simp [iteration_prompt, he]

/-- Witness for C8: a failing lookup yields the empty prompt while a block is
being continued. -/
theorem prompt_selection_rule_witness :
    iteration_prompt (fun _ => Except.error ()) true false = "" :=
  (prompt_selection_rule true false (fun _ => Except.error ())).2.2 () rfl

/-- Claim C9: a line of nothing but whitespace is non-empty for the raw
`is_empty` check (so it never triggers the blank-line override passed to the
classifier), yet its history record, trimmed of trailing whitespace, is the
empty string. -/
theorem whitespace_line_not_blank (line : String)
    (hne : line ≠ "") (hws : line.data.all Char.isWhitespace = true) :
    line.isEmpty = false ∧ trim_end line = "" := by
  constructor
  · exact isEmpty_false_of_ne line hne
  · unfold trim_end
    have hd : line.data.reverse.dropWhile Char.isWhitespace = [] := by
      rw [List.dropWhile_eq_nil_iff]
      intro x hx
      exact List.all_eq_true.mp hws x (List.mem_reverse.mp hx)
    rw [hd]
    rfl

/-- Witness for C9 on a line holding a single space. -/
theorem whitespace_line_not_blank_witness :
    (" " : String).isEmpty = false ∧ trim_end " " = "" :=
  whitespace_line_not_blank " " (by decide) (by decide)

/-- Claim C5: when the accumulated buffer compiles while a block is being
continued and the just-read line is non-empty, the classifier returns `Ok`
without consulting the executor (the verdict is the same for every
`run_code_obj`, even an always-failing one), and the loop driver keeps
`continuing_block` set and retains the appended buffer for that iteration. -/
theorem midblock_success_holds_execution
    (vm : VMHooks) (st : ShellState) (line : String)
    (hline : line.isEmpty = false)
    (hcb : st.continuing_block = true)
    (hhist : vm.add_history_entry (trim_end line) = Except.ok ())
    (hcompile : vm.compile
        ((if st.full_input.isEmpty then line
          else st.full_input ++ line).push '\n') = Except.ok ()) :
    (∀ runner : CodeObj → Except PyExc Unit,
      shell_exec vm.compile runner
        ((if st.full_input.isEmpty then line
          else st.full_input ++ line).push '\n')
        line.isEmpty st.continuing_block = ShellExecResult.Ok) ∧
    run_shell_step vm st (.Line line) =
      LoopStep.next
        ⟨(if st.full_input.isEmpty then line
           else st.full_input ++ line).push '\n', true, false⟩ none := by
  have hok : ∀ runner : CodeObj → Except PyExc Unit,
      shell_exec vm.compile runner
        ((if st.full_input.isEmpty then line
          else st.full_input ++ line).push '\n')
        line.isEmpty st.continuing_block = ShellExecResult.Ok := by
    intro runner
    rw [hline, hcb]
    simp [shell_exec, hcompile]
  refine ⟨hok, ?_⟩
  have hok2 := hok vm.run_code_obj
  rw [hline, hcb] at hok2
  simp only [run_shell_step, hhist, hline, hcb, handle_result]
  rw [hok2]
  rfl

/-- Witness for C5: mid-block, the independently parseable line `x = 1` is
appended but not executed and the block state survives. -/
theorem midblock_success_holds_execution_witness :
    (∀ runner : CodeObj → Except PyExc Unit,
      shell_exec ok_vm.compile runner
        ((if ("if True:\n" : String).isEmpty then "x = 1"
          else "if True:\n" ++ "x = 1").push '\n')
        ("x = 1" : String).isEmpty true = ShellExecResult.Ok) ∧
    run_shell_step ok_vm ⟨"if True:\n", true, false⟩ (.Line "x = 1") =
      LoopStep.next
        ⟨(if ("if True:\n" : String).isEmpty then "x = 1"
           else "if True:\n" ++ "x = 1").push '\n', true, false⟩ none :=
  midblock_success_holds_execution ok_vm ⟨"if True:\n", true, false⟩ "x = 1"
    (by decide) rfl rfl rfl

/-- Claim C6: after a line-reading iteration that continues the loop, the
buffer is empty or ends with a line break; it is retained (holding the
appended input) on `ContinueLine`/`ContinueBlock` verdicts; it is cleared
exactly on an `Ok` verdict with a blank line or outside a block, or on an
error verdict; and an interrupt clears it as well. -/
theorem input_buffer_invariant
    (vm : VMHooks) (st : ShellState) (line : String)
    (st2 : ShellState) (rep : Option PyExc)
    (buf : String) (v : ShellExecResult)
    (hbuf : buf =
      (if st.full_input.isEmpty then line else st.full_input ++ line).push '\n')
    (hv : v = shell_exec vm.compile vm.run_code_obj buf line.isEmpty
      st.continuing_block)
    (h : run_shell_step vm st (.Line line) = LoopStep.next st2 rep) :
    (st2.full_input = "" ∨ ends_with_newline st2.full_input = true) ∧
    ((v = ShellExecResult.ContinueLine ∨ v = ShellExecResult.ContinueBlock) →
      st2.full_input = buf) ∧
    (st2.full_input = "" ↔
      ((v = ShellExecResult.Ok ∧
        (line.isEmpty = true ∨ st.continuing_block = false)) ∨
        ∃ e, v = ShellExecResult.PyErr e)) ∧
    (∀ st3 rep3, run_shell_step vm st .Interrupt = LoopStep.next st3 rep3 →
      st3.full_input = "") := by
  have hint : ∀ st3 rep3,
      run_shell_step vm st .Interrupt = LoopStep.next st3 rep3 →
      st3.full_input = "" := by
    intro st3 rep3 h3
    have h4 : run_shell_step vm st .Interrupt =
        LoopStep.next ⟨"", false, false⟩ (some PyExc.keyboardInterrupt) := rfl
    rw [h4] at h3
    injection h3 with h5 h6
    rw [← h5]
  subst hbuf
  cases hhist : vm.add_history_entry (trim_end line) with
  | error u =>
    simp [run_shell_step, hhist] at h
  | ok u =>
    simp only [run_shell_step, hhist, handle_result] at h
    rw [← hv] at h
    cases v with
    | Ok =>
      cases hcb : st.continuing_block with
      | true =>
        cases hemp : line.isEmpty with
        | true =>
          simp [hcb, hemp] at h
          obtain ⟨h1, h2⟩ := h
          subst h1
          refine ⟨Or.inl rfl, ?_, ?_, hint⟩
          · intro hd
            rcases hd with hd | hd <;> simp at hd
          · simp [hemp]
        | false =>
          simp [hcb, hemp] at h
          obtain ⟨h1, h2⟩ := h
          subst h1
          refine ⟨Or.inr (ends_with_newline_push _), ?_, ?_, hint⟩
          · intro hd
            rcases hd with hd | hd <;> simp at hd
          · simp [hemp, hcb, push_ne_empty]
      | false =>
        simp [hcb] at h
        obtain ⟨h1, h2⟩ := h
        subst h1
        refine ⟨Or.inl rfl, ?_, ?_, hint⟩
        · intro hd
          rcases hd with hd | hd <;> simp at hd
        · simp [hcb]
    | ContinueLine =>
      simp at h
      obtain ⟨h1, h2⟩ := h
      subst h1
      refine ⟨Or.inr (ends_with_newline_push _), ?_, ?_, hint⟩
      · intro hd
        rfl
      · simp [push_ne_empty]
    | ContinueBlock =>
      simp at h
      obtain ⟨h1, h2⟩ := h
      subst h1
      refine ⟨Or.inr (ends_with_newline_push _), ?_, ?_, hint⟩
      · intro hd
        rfl
      · simp [push_ne_empty]
    | PyErr e =>
      cases hsys : e.isSystemExit with
      | true =>
        simp [hsys] at h
        cases hsave : vm.save_history with
        | ok u2 => simp [hsave] at h
        | error u2 => simp [hsave] at h
      | false =>
        simp [hsys] at h
        obtain ⟨h1, h2⟩ := h
        subst h1
        refine ⟨Or.inl rfl, ?_, ?_, hint⟩
        · intro hd
          rcases hd with hd | hd <;> simp at hd
        · simp

/-- Witness for C6: a single self-contained line outside any block executes
and the buffer is cleared; the interrupt path clears it as well. -/
theorem input_buffer_invariant_witness :
    (("" : String) = "" ∨ ends_with_newline "" = true) ∧
    ((ShellExecResult.Ok = ShellExecResult.ContinueLine ∨
        ShellExecResult.Ok = ShellExecResult.ContinueBlock) →
      ("" : String) =
        (if ("" : String).isEmpty then "x = 1" else "" ++ "x = 1").push '\n') ∧
    (("" : String) = "" ↔
      ((ShellExecResult.Ok = ShellExecResult.Ok ∧
        (("x = 1" : String).isEmpty = true ∨ false = false)) ∨
        ∃ e, ShellExecResult.Ok = ShellExecResult.PyErr e)) ∧
    (∀ st3 rep3, run_shell_step ok_vm ⟨"", false, false⟩ .Interrupt =
        LoopStep.next st3 rep3 →
      st3.full_input = "") :=
  input_buffer_invariant ok_vm ⟨"", false, false⟩ "x = 1" ⟨"", false, false⟩ none
    ((if ("" : String).isEmpty then "x = 1" else "" ++ "x = 1").push '\n')
    ShellExecResult.Ok rfl (by decide) (by decide)

end Shell
